import Mathlib

/-!
Verification of the camera acquisition and processing pipeline of this repository
(CameraHandler.py together with the parameter-producing UI callbacks of TkInterface.py).

Images are single-channel pixel grids; all the operations under study act pixelwise, so an
image is embedded as the list of its pixel values (naturals, the values of the working
unsigned integer type).  OpenCV's floating-point intermediate arithmetic is embedded as exact
rational arithmetic followed by the saturating round/cast that `cv2.addWeighted` performs
when writing back into the integer array.
-/

/-- A single-channel image: the list of its pixel values in the working unsigned
integer type. -/
abbrev Image := List ℕ

/-- Saturating cast used by OpenCV when a floating-point result is written back into an
unsigned integer array: round to nearest, then clamp into `[0, maxVal]`. -/
def satCast (maxVal : ℕ) (x : ℚ) : ℕ :=
  (max 0 (min (maxVal : ℤ) (round x))).toNat

/-- Embedding of `cv2.addWeighted(src1, alpha, src2, beta, 0)` on same-shape single-channel
integer images: pixelwise `src1*alpha + src2*beta`, saturate-cast back to the array type. -/
def addWeighted (maxVal : ℕ) (src1 : Image) (alpha : ℚ) (src2 : Image) (beta : ℚ) : Image :=
  List.zipWith (fun a b => satCast maxVal ((a : ℚ) * alpha + (b : ℚ) * beta)) src1 src2

/-- Embedding of `cv2.subtract` on unsigned integer images: pixelwise saturating
subtraction, clamped at 0 (truncated natural subtraction). -/
def cv2_subtract (a b : Image) : Image :=
  List.zipWith (fun x y => x - y) a b

/-- Embedding of `cv2.absdiff`: pixelwise absolute difference. -/
def cv2_absdiff (a b : Image) : Image :=
  List.zipWith (fun x y => max x y - min x y) a b

/-- Stand-in for Python strings stored in the parameter dictionary (only their identity
matters to the pipeline: the dispatch in `_update` tests `is True`, so every string behaves
alike there). -/
inductive PyStr where
  | subtractStr
  | absdiffStr
  | otherStr (n : ℕ)
deriving DecidableEq

/-- A dynamically typed Python value as stored in the `params` dictionary slots that the
code tests with `is True` (booleans from the Tk checkbox callbacks, the default string
`"subtract"`, numbers, images). -/
inductive PyVal where
  | pyBool (b : Bool)
  | pyStr (s : PyStr)
  | pyInt (z : ℤ)
  | pyFloat (v : ℚ)
  | pyImg (img : Image)
deriving DecidableEq

/-- Embedding of the Python test `x is True`: it holds exactly for the boolean `True`
object, and for no other value whatsoever. -/
def PyVal.isTrue : PyVal → Bool
  | PyVal.pyBool true => true
  | _ => false

/-- The `params` dictionary of `CameraHandler._update` (lines 90-101), with each key as a
field.  Gate values and the overlay opacity arrive from `ttk.Scale.get()` as floats,
embedded as rationals; `integration_val` is sent already converted by `int()` in
`ImageIntegration._integr_val_update`. -/
structure Params where
  dark : Option Image
  static : Option Image
  subtract_dark : PyVal
  overlay_static : PyVal
  overlay_opacity : ℚ
  subtraction_mode : PyVal
  integration_val : ℕ
  integration : PyVal
  gate_low : ℚ
  gate_high : ℚ
deriving DecidableEq

/-- Initial parameter dictionary of `_update`, after the attempted `cv2.imread` of the two
previously saved reference images (which yield `None` when the files are absent);
`dark0`/`static0` stand for whatever those loads produced. -/
def initParams (bd : ℕ) (dark0 static0 : Option Image) : Params :=
  { dark := dark0
    static := static0
    subtract_dark := PyVal.pyBool false
    overlay_static := PyVal.pyBool false
    overlay_opacity := 50
    subtraction_mode := PyVal.pyStr PyStr.subtractStr
    integration_val := 1
    integration := PyVal.pyBool false
    gate_low := 1
    gate_high := (bd : ℚ) - 1 }

/-- One `(key, value)` pair sent through `update_param`; one constructor per key the
program ever enqueues. -/
inductive Update where
  | dark (img : Image)
  | static (img : Image)
  | subtract_dark (v : PyVal)
  | overlay_static (v : PyVal)
  | overlay_opacity (v : ℚ)
  | subtraction_mode (v : PyVal)
  | integration_val (v : ℕ)
  | integration (v : PyVal)
  | gate_low (v : ℚ)
  | gate_high (v : ℚ)
deriving DecidableEq

/-- The body of the drain loop of `_update` (lines 124-126): `params[key] = val`, a verbatim
dictionary assignment with no validation of any kind. -/
def applyUpdate (p : Params) : Update → Params
  | Update.dark img => { p with dark := some img }
  | Update.static img => { p with static := some img }
  | Update.subtract_dark v => { p with subtract_dark := v }
  | Update.overlay_static v => { p with overlay_static := v }
  | Update.overlay_opacity v => { p with overlay_opacity := v }
  | Update.subtraction_mode v => { p with subtraction_mode := v }
  | Update.integration_val v => { p with integration_val := v }
  | Update.integration v => { p with integration := v }
  | Update.gate_low v => { p with gate_low := v }
  | Update.gate_high v => { p with gate_high := v }

/-- The drain-and-apply step at the top of every processing cycle: all pending updates are
applied in enqueue order. -/
def drain (p : Params) (us : List Update) : Params :=
  us.foldl applyUpdate p

/-- The gate slider callback `BasicProcessing._gate_scale_update` of TkInterface.py
(lines 323-338): if the slider values satisfy `gate_low >= gate_high` the callback forces
`gate_high = gate_low + 1` before enqueueing, then enqueues the two gate updates. -/
def gate_scale_update (gl gh : ℚ) : List Update :=
  [Update.gate_low gl, Update.gate_high (if gl ≥ gh then gl + 1 else gh)]

/-- The temporal integration loop of `_update` (lines 134-137), after `k` of its `n`
iterations.  `result` starts as the newest frame `q[-1]`; iteration `i` computes
`result = cv2.addWeighted(result, i/n, q[-i-1], (n-i)/n, 0)`, so iteration `i` blends in the
frame at offset `i` from the newest (`q[-i-1] = q[len(q)-1-i]`). -/
def integr_loop (maxVal : ℕ) (q : List Image) (n : ℕ) : ℕ → Image
  | 0 => q.getLastD []
  | i + 1 =>
      addWeighted maxVal (integr_loop maxVal q n i) ((i : ℚ) / (n : ℚ))
        (q.getD (q.length - 1 - i) []) (((n - i : ℕ) : ℚ) / (n : ℚ))

/-- The integration stage of one processing cycle (lines 128-137): start from the newest
frame; when `params["integration"] is True`, run the weighted loop over
`n = min(int(params["integration_val"]), len(queue))` frames. -/
def integration_stage (bd : ℕ) (q : List Image) (p : Params) : Image :=
  if p.integration.isTrue then
    integr_loop (bd - 1) q (min p.integration_val q.length) (min p.integration_val q.length)
  else q.getLastD []

/-- The dark-subtraction stage (lines 140-144): applied only when a dark frame is set and
`params["subtract_dark"] is True`; `cv2.absdiff` exactly when
`params["subtraction_mode"] is True`, `cv2.subtract` for every other stored value. -/
def dark_stage (p : Params) (img : Image) : Image :=
  match p.dark with
  | some d =>
      if p.subtract_dark.isTrue then
        if p.subtraction_mode.isTrue then cv2_absdiff img d else cv2_subtract img d
      else img
  | none => img

/-- The closure `lut_func` of `_update` (lines 114-119) on one pixel:
`max(0, min(BIT_DEPTH-1, (i - gate_low) * (BIT_DEPTH-1)/(gate_high-gate_low)))`, as rational
arithmetic (the gate values coming from the Tk sliders are floats, so the numpy expression
is evaluated in floating point). -/
def lut_func (bd : ℕ) (gl gh : ℚ) (v : ℕ) : ℚ :=
  max 0 (min ((bd : ℚ) - 1) (((v : ℚ) - gl) * (((bd : ℚ) - 1) / (gh - gl))))

/-- Line 151: `lut_func(result).astype(self._image_dtype)`; the numpy cast truncates toward
zero, and the clamped value is non-negative, so it is the floor. -/
def lut_apply (bd : ℕ) (gl gh : ℚ) (img : Image) : Image :=
  img.map (fun v => (⌊lut_func bd gl gh v⌋).toNat)

/-- A three-channel (B, G, R) pixel. -/
abbrev Pixel3 := ℕ × ℕ × ℕ

/-- Line 161: `cv2.merge((result * 0, result * 0, result))` — the grayscale image goes to
the red channel, blue and green are zeroed. -/
def merge_red (img : Image) : List Pixel3 :=
  img.map (fun v => (0, 0, v))

/-- Line 162: `cv2.cvtColor(static, cv2.COLOR_GRAY2BGR)` — the grayscale value is
replicated into all three channels. -/
def gray_to_bgr (img : Image) : List Pixel3 :=
  img.map (fun v => (v, v, v))

/-- Embedding of `cv2.addWeighted` on three-channel images (channelwise). -/
def add_weighted3 (maxVal : ℕ) (a : List Pixel3) (alpha : ℚ) (b : List Pixel3) (beta : ℚ) :
    List Pixel3 :=
  List.zipWith
    (fun u v =>
      (satCast maxVal ((u.1 : ℚ) * alpha + (v.1 : ℚ) * beta),
       satCast maxVal ((u.2.1 : ℚ) * alpha + (v.2.1 : ℚ) * beta),
       satCast maxVal ((u.2.2 : ℚ) * alpha + (v.2.2 : ℚ) * beta)))
    a b

/-- The published final image is grayscale when the overlay branch is not taken and
three-channel after overlay compositing. -/
inductive FinalImage where
  | gray (img : Image)
  | color (img : List Pixel3)
deriving DecidableEq

/-- The overlay stage (lines 159-165): when a static frame is set and
`params["overlay_static"] is True`, send the equalized grayscale to the red channel,
convert the static overlay GRAY→BGR, and alpha-blend with
`opacity = params["overlay_opacity"] / 100`. -/
def overlay_stage (bd : ℕ) (p : Params) (img : Image) : FinalImage :=
  match p.static with
  | some s =>
      if p.overlay_static.isTrue then
        FinalImage.color
          (add_weighted3 (bd - 1) (merge_red img) (1 - p.overlay_opacity / 100)
            (gray_to_bgr s) (p.overlay_opacity / 100))
      else FinalImage.gray img
  | none => FinalImage.gray img

/-- The three images retained by one processing cycle: `_last_integrated_img`,
`_last_equalized_img`, `_last_final_img`. -/
structure CycleResult where
  integrated : Image
  equalized : Image
  final : FinalImage
deriving DecidableEq

/-- One processing cycle of `_update` on a non-empty frame queue (lines 128-167):
integration stage, dark subtraction, store `integrated`; LUT equalization with the gate
values of the current snapshot, store `equalized`; overlay compositing, store `final`. -/
def processCycle (bd : ℕ) (q : List Image) (p : Params) : CycleResult :=
  { integrated := dark_stage p (integration_stage bd q p)
    equalized := lut_apply bd p.gate_low p.gate_high (dark_stage p (integration_stage bd q p))
    final := overlay_stage bd p (lut_apply bd p.gate_low p.gate_high
      (dark_stage p (integration_stage bd q p))) }

/-- Working bit depth selection of `__init__` (lines 35-46), for power-of-two declared input
depths: the code compares `np.log2(INPUT_BIT_DEPTH)` with 32, 16 and 8, the third branch
using `>=` (flagged by the code's own TODO as meant to be `>`). -/
def selectBitDepth (inputBitDepth : ℕ) : ℕ :=
  if 32 < Nat.log2 inputBitDepth then 2 ^ 64
  else if 16 < Nat.log2 inputBitDepth then 2 ^ 32
  else if 8 ≤ Nat.log2 inputBitDepth then 2 ^ 16
  else 2 ^ 8

/-- The selection the code's TODO comment on line 41 says was intended (`>` instead of
`>=`): an 8-bit input then gets an 8-bit working type. -/
def selectBitDepthIntended (inputBitDepth : ℕ) : ℕ :=
  if 32 < Nat.log2 inputBitDepth then 2 ^ 64
  else if 16 < Nat.log2 inputBitDepth then 2 ^ 32
  else if 8 < Nat.log2 inputBitDepth then 2 ^ 16
  else 2 ^ 8

/-- Line 48: `_INPUT_TO_OUTPUT_BIT_DEPTH_MULT = 2^(log2(BIT_DEPTH) - log2(INPUT_BIT_DEPTH))`,
which for powers of two is the exact quotient. -/
def bitDepthMult (bd inputBitDepth : ℕ) : ℕ :=
  bd / inputBitDepth

/-- The bit-depth normalization of `_snap_update` (line 201): `pixels * MULT` in the working
unsigned type (wrapping modulo the type size). -/
def snapNormalize (bd mult : ℕ) (raw : Image) : Image :=
  raw.map (fun v => v * mult % bd)

/-- `_MAX_INTEGRATION_LEN` (line 28): capacity of the frame history. -/
def MAX_INTEGRATION_LEN : ℕ := 50

/-- One push into the frame history by `_snap_update` (lines 209-213): append the new frame
at the tail, then `pop(0)` when the length just hit `_MAX_INTEGRATION_LEN + 1`. -/
def snap_push (q : List Image) (img : Image) : List Image :=
  if (q ++ [img]).length = MAX_INTEGRATION_LEN + 1 then (q ++ [img]).drop 1 else q ++ [img]

/-- The mutable state of a `CameraHandler` seen by the accessors (`__init__` lines 24-27):
the frame history and the three last published images, all initially absent. -/
structure HandlerState where
  img_queue : List Image
  last_integrated : Option Image
  last_equalized : Option Image
  last_final : Option FinalImage
deriving DecidableEq

/-- The state right after `__init__`, before any snap or processing cycle. -/
def initialState : HandlerState :=
  { img_queue := [], last_integrated := none, last_equalized := none, last_final := none }

/-- What a getter hands back to Python callers: the `None` object, an actual image object,
or — the `np.array(None)` case — a 0-dimensional object ndarray wrapping `None`, which is a
real ndarray and in particular is not `None`. -/
inductive PyRes (α : Type) where
  | pyNone : PyRes α
  | obj : α → PyRes α
  | ndarrayOfNone : PyRes α
deriving DecidableEq

/-- `get_last_img` (lines 56-60): the tail of the queue when non-empty, else `None`. -/
def get_last_img (s : HandlerState) : PyRes Image :=
  match s.img_queue.getLast? with
  | some img => PyRes.obj img
  | none => PyRes.pyNone

/-- `get_last_integrated_img` (lines 62-63): returns the attribute itself, `None` until the
first cycle stores an image. -/
def get_last_integrated_img (s : HandlerState) : PyRes Image :=
  match s.last_integrated with
  | some img => PyRes.obj img
  | none => PyRes.pyNone

/-- `get_last_equalized_img` (lines 65-66). -/
def get_last_equalized_img (s : HandlerState) : PyRes Image :=
  match s.last_equalized with
  | some img => PyRes.obj img
  | none => PyRes.pyNone

/-- `get_last_final_img` (lines 68-69): `np.array(self._last_final_img)`.  `np.array` of an
image is a copy of it, but `np.array(None)` is a 0-dimensional object ndarray, not `None`. -/
def get_last_final_img (s : HandlerState) : PyRes FinalImage :=
  match s.last_final with
  | some img => PyRes.obj img
  | none => PyRes.ndarrayOfNone

/-- Destination files of the two reference-capture actions. -/
inductive SavePath where
  | darkPng
  | staticPng
deriving DecidableEq

/-- Observable effect of a reference-capture action: either only the warning print, or a
parameter update enqueued via `update_param` together with a `cv2.imwrite` of an image to a
file. -/
inductive RefAction where
  | warn : RefAction
  | save (queued : Update) (path : SavePath) (img : Image) : RefAction
deriving DecidableEq

/-- `take_dark_img` (lines 227-232): when an equalized image exists, enqueue it as the new
`"dark"` parameter and persist that same image to `images/dark.png`. -/
def take_dark_img (s : HandlerState) : RefAction :=
  match s.last_equalized with
  | none => RefAction.warn
  | some img => RefAction.save (Update.dark img) SavePath.darkPng img

/-- `take_static_img` (lines 234-239): same with the `"static"` parameter and
`images/static.png`. -/
def take_static_img (s : HandlerState) : RefAction :=
  match s.last_equalized with
  | none => RefAction.warn
  | some img => RefAction.save (Update.static img) SavePath.staticPng img

/-- A CPython `queue.Queue(maxsize=n)`: its item list and its bound. -/
structure BoundedQueue (α : Type) where
  items : List α
  maxsize : ℕ
deriving DecidableEq

/-- Outcome of `queue.Queue.put(item)` with the default `block=True, timeout=None`: the item
is appended when a slot is free; when the queue is full the calling thread blocks until a
consumer removes an item — the item is never dropped. -/
inductive PutOutcome (α : Type) where
  | enqueued (q : BoundedQueue α)
  | blocked
deriving DecidableEq

/-- `queue.Queue.put` with default arguments, as called by `update_param` (line 225). -/
def BoundedQueue.put {α : Type} (q : BoundedQueue α) (x : α) : PutOutcome α :=
  if q.items.length < q.maxsize then
    PutOutcome.enqueued { items := q.items ++ [x], maxsize := q.maxsize }
  else PutOutcome.blocked

/-- `self._parameters_queue = queue.Queue(maxsize=32)` (`__init__` line 21), empty. -/
def parametersQueue0 : BoundedQueue Update :=
  { items := [], maxsize := 32 }

/-- `update_param` (lines 224-225): a plain blocking `put` of the `(key, value)` pair into
the bounded parameter queue. -/
def update_param (q : BoundedQueue Update) (u : Update) : PutOutcome Update :=
  q.put u

/-- A caller issuing a sequence of `update_param` calls with no concurrent consumer: the
result is the final queue, or `none` if some call blocked forever. -/
def putAll (q : BoundedQueue Update) : List Update → Option (BoundedQueue Update)
  | [] => some q
  | u :: us =>
      match update_param q u with
      | PutOutcome.enqueued q2 => putAll q2 us
      | PutOutcome.blocked => none

/-- The weighted blend the amended claim C1 describes, over the selected window `w` (the
last `n` frames, oldest first, newest last): the composite starts as the newest frame
(mirroring line 130) and step `i` — taken for `i = 0` (newest) up to `n-1` (oldest) —
blends the frame at offset `i` from the newest with weight `(n-i)/n` into the running
composite weighted `i/n`. -/
def window_blend (maxVal : ℕ) (w : List Image) (n : ℕ) : ℕ → Image
  | 0 => w.getLastD []
  | i + 1 =>
      addWeighted maxVal (window_blend maxVal w n i) ((i : ℚ) / (n : ℚ))
        (w.getD (n - 1 - i) []) (((n - i : ℕ) : ℚ) / (n : ℚ))

/-- The weighted blend exactly as claim C1 words it: same per-frame weights — the frame at
offset `i` from the newest receives `(n-i)/n` and the running composite `i/n` — but
accumulated from the oldest frame of the window to the newest, i.e. step `k = 0,…,n-1`
processes offset `i = n-1-k`; the composite starts as the newest frame (line 130).
Written from the spec for comparison with the loop the code runs. -/
def window_blend_oldest_first (maxVal : ℕ) (w : List Image) (n : ℕ) : ℕ → Image
  | 0 => w.getLastD []
  | k + 1 =>
      addWeighted maxVal (window_blend_oldest_first maxVal w n k)
        (((n - 1 - k : ℕ) : ℚ) / (n : ℚ))
        (w.getD k []) (((n - (n - 1 - k) : ℕ) : ℚ) / (n : ℚ))

/-- Overlay compositing exactly as claim C4 words it: the overlay, like the equalized
image, is promoted to three channels by placing the grayscale in one channel with the two
others zeroed.  Written from the spec for comparison with `overlay_stage`. -/
def overlay_spec_claim (bd : ℕ) (p : Params) (img : Image) : FinalImage :=
  match p.static with
  | some s =>
      if p.overlay_static.isTrue then
        FinalImage.color
          (add_weighted3 (bd - 1) (merge_red img) (1 - p.overlay_opacity / 100)
            (merge_red s) (p.overlay_opacity / 100))
      else FinalImage.gray img
  | none => FinalImage.gray img

/-- Default parameter snapshot at the 16-bit working depth the code selects for the
repository's configured `_INPUT_BIT_DEPTH = 256`. -/
def p0 : Params := initParams 65536 none none

/-- Snapshot with temporal integration enabled over two frames, everything else off. -/
def pInt2 : Params :=
  { p0 with integration := PyVal.pyBool true, integration_val := 2 }

/-- Snapshot with the overlay enabled at opacity 50 over a constant static image, gates
chosen so the LUT is the identity on the test pixel. -/
def pOverlay : Params :=
  { p0 with
    static := some [200]
    overlay_static := PyVal.pyBool true
    overlay_opacity := 50
    gate_low := 0
    gate_high := 65535 }

/-- Snapshot with dark subtraction enabled (default `"subtract"` mode) and integration
disabled. -/
def pDark : Params :=
  { p0 with dark := some [3], subtract_dark := PyVal.pyBool true }

/-- Snapshot with dark subtraction enabled and the subtraction mode holding the string
name of the absolute-difference mode — which the `is True` dispatch ignores. -/
def pDarkStr : Params :=
  { pDark with subtraction_mode := PyVal.pyStr PyStr.absdiffStr }

/-- The C8 scenario gates on the working depth the code actually selects. -/
def pGate16 : Params :=
  { p0 with gate_low := 50, gate_high := 200 }

/-- The C8 scenario gates on the 8-bit working depth the TODO-intended selection gives. -/
def pGate8 : Params :=
  { initParams 256 none none with gate_low := 50, gate_high := 200 }

/-- Handler state whose last integrated and last equalized images differ. -/
def sRefs : HandlerState :=
  { img_queue := []
    last_integrated := some [1]
    last_equalized := some [2]
    last_final := none }

/-- A parameter queue at its capacity of 32. -/
def fullParamsQueue : BoundedQueue Update :=
  { items := List.replicate 32 (Update.gate_low 1), maxsize := 32 }

/-! Helper lemmas. -/

/-- Every push leaves the newest frame at the tail of the history. -/
theorem snap_push_getLast? (q : List Image) (f : Image) :
    (snap_push q f).getLast? = some f := by
  unfold snap_push
  split
  · next h =>
      cases q with
      | nil => simp [MAX_INTEGRATION_LEN] at h
      | cons a t =>
          have : ((a :: t) ++ [f]).drop 1 = t ++ [f] := by simp
          rw [this, List.getLast?_concat]
  · exact List.getLast?_concat q

/-- One push on a buffer that is the 50-frame suffix of the frames seen so far yields the
50-frame suffix of the extended sequence. -/
theorem snap_push_drop (fs : List Image) (f : Image) :
    snap_push (fs.drop (fs.length - MAX_INTEGRATION_LEN)) f
      = (fs ++ [f]).drop (fs.length + 1 - MAX_INTEGRATION_LEN) := by
  simp only [snap_push, MAX_INTEGRATION_LEN]
  by_cases h : 50 ≤ fs.length
  · have h1 : 1 ≤ (fs.drop (fs.length - 50)).length := by
      simp only [List.length_drop]
      omega
    have hcond : ((fs.drop (fs.length - 50)) ++ [f]).length = 50 + 1 := by
      simp only [List.length_append, List.length_drop, List.length_singleton]
      omega
    rw [if_pos hcond, List.drop_append_of_le_length h1, List.drop_drop,
      List.drop_append_of_le_length (by omega : fs.length + 1 - 50 ≤ fs.length)]
    congr 2
    omega
  · have h1 : fs.length - 50 = 0 := by omega
    have h2 : fs.length + 1 - 50 = 0 := by omega
    have hcond : ¬ (fs ++ [f]).length = 50 + 1 := by
      simp only [List.length_append, List.length_singleton]
      omega
    rw [h1, h2, List.drop_zero, List.drop_zero, if_neg hcond]

/-- The frame history built by any sequence of pushes is exactly the suffix of the last
(at most) 50 frames, in arrival order. -/
theorem snap_push_foldl (fs : List Image) :
    fs.foldl snap_push [] = fs.drop (fs.length - MAX_INTEGRATION_LEN) := by
  induction fs using List.reverseRecOn with
  | nil => rfl
  | append_singleton fs f ih =>
      rw [List.foldl_append, List.foldl_cons, List.foldl_nil, ih, snap_push_drop,
        List.length_append]
      simp

/-- The tail of the history after any sequence of pushes is the last pushed frame. -/
theorem snap_push_foldl_getLast? (fs : List Image) :
    (fs.foldl snap_push []).getLast? = fs.getLast? := by
  induction fs using List.reverseRecOn with
  | nil => rfl
  | append_singleton fs f ih =>
      rw [List.foldl_append, List.foldl_cons, List.foldl_nil, snap_push_getLast?,
        List.getLast?_concat]

/-- The last element of the window of the most recent `n` frames is the last element of the
whole history. -/
theorem drop_getLast? (q : List Image) (n : ℕ) (hn : 1 ≤ n) (hq : n ≤ q.length) :
    (q.drop (q.length - n)).getLast? = q.getLast? := by
  rw [List.getLast?_eq_getElem?, List.getLast?_eq_getElem?, List.length_drop,
    List.getElem?_drop]
  congr 1
  omega

/-- The integration loop of the code, which indexes the whole history from its tail, equals
the same blend computed over just the selected window of the most recent `n` frames. -/
theorem integr_loop_eq_window_blend (maxVal : ℕ) (q : List Image) (n : ℕ)
    (hn : 1 ≤ n) (hq : n ≤ q.length) :
    ∀ k, k ≤ n →
      integr_loop maxVal q n k = window_blend maxVal (q.drop (q.length - n)) n k := by
  intro k
  induction k with
  | zero =>
      intro _
      simp only [integr_loop, window_blend, List.getLastD_eq_getLast?]
      rw [drop_getLast? q n hn hq]
  | succ i ih =>
      intro hk
      have harg : q.getD (q.length - 1 - i) [] = (q.drop (q.length - n)).getD (n - 1 - i) [] := by
        simp only [List.getD_eq_getElem?_getD, List.getElem?_drop]
        congr 2
        omega
      simp only [integr_loop, window_blend]
      rw [ih (by omega), harg]

/-- The Python identity test `x is True` holds exactly on the boolean value `True`. -/
theorem isTrue_eq_true_iff (v : PyVal) : v.isTrue = true ↔ v = PyVal.pyBool true := by
  cases v with
  | pyBool b => cases b <;> simp [PyVal.isTrue]
  | pyStr s => simp [PyVal.isTrue]
  | pyInt z => simp [PyVal.isTrue]
  | pyFloat x => simp [PyVal.isTrue]
  | pyImg i => simp [PyVal.isTrue]

/-- A sequence of `update_param` calls that fits inside the bound is enqueued whole, in
order, nothing dropped. -/
theorem putAll_append (q : BoundedQueue Update) (us : List Update)
    (hm : q.maxsize = 32) (h : q.items.length + us.length ≤ 32) :
    putAll q us = some { items := q.items ++ us, maxsize := 32 } := by
  induction us generalizing q with
  | nil =>
      simp only [putAll, List.append_nil]
      cases q
      simp_all
  | cons u us ih =>
      have hlt : q.items.length < q.maxsize := by
        rw [hm]
        simp only [List.length_cons] at h
        omega
      simp only [putAll, update_param, BoundedQueue.put, if_pos hlt]
      rw [ih]
      · simp
      · exact hm
      · simp only [List.length_append, List.length_singleton, List.length_cons,
          List.length_nil] at h ⊢
        omega

/-! Claim theorems. -/

/-- C6: for every sequence of pushes by the snap thread, the frame history never exceeds
`_MAX_INTEGRATION_LEN` (50) frames, the buffer is exactly the FIFO suffix of the most
recent frames (the oldest frame is the one evicted on overflow), and `get_last_img`
returns the most recently pushed frame. -/
theorem ring_buffer_invariants (fs : List Image) :
    (fs.foldl snap_push []).length ≤ MAX_INTEGRATION_LEN ∧
    fs.foldl snap_push [] = fs.drop (fs.length - MAX_INTEGRATION_LEN) ∧
    get_last_img (HandlerState.mk (fs.foldl snap_push []) none none none)
      = (fs.getLast?).elim PyRes.pyNone PyRes.obj := by
  refine ⟨?_, snap_push_foldl fs, ?_⟩
  · rw [snap_push_foldl, List.length_drop]
    omega
  · simp only [get_last_img]
    rw [snap_push_foldl_getLast?]
    cases fs.getLast? <;> rfl

/-- C9 (counterexample): before the first processing cycle, `get_last_final_img` does not
return `None` — it returns `np.array(None)`, a 0-dimensional object ndarray. -/
theorem final_accessor_counterexample :
    get_last_final_img initialState = PyRes.ndarrayOfNone ∧
    get_last_final_img initialState ≠ (PyRes.pyNone : PyRes FinalImage) := by
  decide

/-- C9 (amended): until the first processing cycle completes, `get_last_img`,
`get_last_integrated_img` and `get_last_equalized_img` return `None`, while
`get_last_final_img` returns `np.array(None)` — a 0-dimensional object ndarray wrapping
`None`, not `None` itself. -/
theorem accessors_before_first_cycle :
    get_last_img initialState = PyRes.pyNone ∧
    get_last_integrated_img initialState = PyRes.pyNone ∧
    get_last_equalized_img initialState = PyRes.pyNone ∧
    get_last_final_img initialState = PyRes.ndarrayOfNone := by
  decide

/-- C5 (counterexample): in a state whose last integrated and last equalized images
differ, `take_dark_img` captures the equalized image, not the integrated one the claim
names. -/
theorem take_refs_counterexample :
    sRefs.last_integrated = some [1] ∧
    take_dark_img sRefs = RefAction.save (Update.dark [2]) SavePath.darkPng [2] ∧
    RefAction.save (Update.dark [2]) SavePath.darkPng [2]
      ≠ RefAction.save (Update.dark [1]) SavePath.darkPng [1] := by
  decide

/-- C5 (amended): both reference-capture actions capture the current equalized image;
each enqueues it as the corresponding parameter update and persists that same image to
its file. -/
theorem capture_reference_images (s : HandlerState) (img : Image)
    (h : s.last_equalized = some img) :
    take_dark_img s = RefAction.save (Update.dark img) SavePath.darkPng img ∧
    take_static_img s = RefAction.save (Update.static img) SavePath.staticPng img := by
  simp [take_dark_img, take_static_img, h]

/-- Witness for `capture_reference_images` at a concrete state. -/
theorem capture_reference_images_witness :
    take_dark_img sRefs = RefAction.save (Update.dark [2]) SavePath.darkPng [2] ∧
    take_static_img sRefs = RefAction.save (Update.static [2]) SavePath.staticPng [2] :=
  capture_reference_images sRefs [2] (by decide)

/-- C3 (counterexample): the drain-and-apply cycle applies gate updates verbatim: a pair
enqueued directly with `gate_low = 10 ≥ 5 = gate_high` leaves the snapshot with
`gate_high = 5 ≠ gate_low + 1`. -/
theorem gate_drain_counterexample :
    ((10 : ℚ) ≥ 5) ∧
    (drain p0 [Update.gate_low 10, Update.gate_high 5]).gate_low = 10 ∧
    (drain p0 [Update.gate_low 10, Update.gate_high 5]).gate_high = 5 ∧
    ¬ ((5 : ℚ) = 10 + 1) := by
  refine ⟨by norm_num, rfl, rfl, by norm_num⟩

/-- C3 (amended): the gate auto-correction lives in the UI callback
`_gate_scale_update`, before enqueueing: for slider values with `gate_low ≥ gate_high`
the callback enqueues the pair `(gate_low, gate_low + 1)`, so after the next
drain-and-apply cycle the active snapshot satisfies `gate_high = gate_low + 1`; the drain
itself performs no validation. -/
theorem gate_correction_in_ui (p : Params) (gl gh : ℚ) (h : gl ≥ gh) :
    (drain p (gate_scale_update gl gh)).gate_low = gl ∧
    (drain p (gate_scale_update gl gh)).gate_high = gl + 1 := by
  simp [drain, gate_scale_update, applyUpdate, if_pos h]

/-- Witness for `gate_correction_in_ui` at concrete slider values 10 ≥ 5. -/
theorem gate_correction_in_ui_witness :
    (drain p0 (gate_scale_update 10 5)).gate_low = 10 ∧
    (drain p0 (gate_scale_update 10 5)).gate_high = 10 + 1 :=
  gate_correction_in_ui p0 10 5 (by norm_num)

/-- Evaluation helper: `Int.toNat` on a numeric literal. -/
theorem toNat_ofNat_lit (n : ℕ) : Int.toNat (no_index (OfNat.ofNat n)) = OfNat.ofNat n := rfl

/-- C2 (counterexample): `update_param` on a saturated parameter channel (32 pending
updates) blocks the caller — the update is not dropped, because `queue.Queue.put` is
called with its default blocking behavior. -/
theorem update_param_saturated_counterexample :
    fullParamsQueue.items.length = fullParamsQueue.maxsize ∧
    update_param fullParamsQueue (Update.gate_low 2) = PutOutcome.blocked := by
  decide

/-- C2 (amended): enqueuing a parameter update is a blocking `put` on the bounded
channel of capacity 32: any burst of at most 32 updates is enqueued whole and in order
(nothing is dropped), and once the channel holds 32 items a further `update_param` call
blocks the caller until a slot frees. -/
theorem update_param_bounded_blocking (us : List Update) (h : us.length ≤ 32) :
    putAll parametersQueue0 us = some { items := us, maxsize := 32 } ∧
    (us.length = 32 →
      ∀ u, update_param { items := us, maxsize := 32 } u = PutOutcome.blocked) := by
  constructor
  · have hh : parametersQueue0.items.length + us.length ≤ 32 := by
      simpa [parametersQueue0] using h
    simpa [parametersQueue0] using putAll_append parametersQueue0 us rfl hh
  · intro hfull u
    simp [update_param, BoundedQueue.put, hfull]

/-- Witness for `update_param_bounded_blocking` on a one-element burst. -/
theorem update_param_bounded_blocking_witness :
    putAll parametersQueue0 [Update.gate_low 3]
      = some { items := [Update.gate_low 3], maxsize := 32 } ∧
    (([Update.gate_low 3] : List Update).length = 32 →
      ∀ u, update_param { items := [Update.gate_low 3], maxsize := 32 } u
        = PutOutcome.blocked) :=
  update_param_bounded_blocking [Update.gate_low 3] (by decide)

/-- C7 (counterexample): with integration disabled but dark subtraction enabled, the
stored integrated image is the dark-subtracted newest frame, not the newest frame. -/
theorem integration_disabled_counterexample :
    pDark.integration.isTrue = false ∧
    (processCycle 65536 [[10]] pDark).integrated = [7] ∧
    (([7] : Image) ≠ ([10] : Image)) := by
  decide

/-- C7 (amended): with `integrationEnabled = false`, and provided dark subtraction does
not fire (no dark frame set, or subtraction disabled), the integrated output of the
processing cycle equals the newest frame, independent of the history length. -/
theorem integration_disabled_passthrough (bd : ℕ) (q : List Image) (p : Params)
    (hq : q ≠ [])
    (hint : p.integration.isTrue = false)
    (hdark : p.dark = none ∨ p.subtract_dark.isTrue = false) :
    (processCycle bd q p).integrated = q.getLast hq := by
  have hstage : integration_stage bd q p = q.getLastD [] := by
    simp [integration_stage, hint]
  have hid : dark_stage p (q.getLastD []) = q.getLastD [] := by
    rcases hdark with h | h
    · simp [dark_stage, h]
    · cases hd : p.dark with
      | none => simp [dark_stage, hd]
      | some d => simp [dark_stage, hd, h]
  have hlast : q.getLastD [] = q.getLast hq := by
    rw [List.getLastD_eq_getLast?, List.getLast?_eq_getLast q hq]
    rfl
  simp only [processCycle]
  rw [hstage, hid, hlast]

/-- Witness for `integration_disabled_passthrough` on a one-frame history. -/
theorem integration_disabled_passthrough_witness :
    (processCycle 65536 [[10]] p0).integrated
      = ([[10]] : List Image).getLast (by decide) :=
  integration_disabled_passthrough 65536 [[10]] p0 (by decide) (by decide) (Or.inl rfl)

/-- C10: whenever dark subtraction is enabled and a dark frame is set, the cycle applies
absolute difference exactly when the stored `subtraction_mode` value is the boolean
`True`; every other stored value — including the default string `"subtract"` and any
string naming of the mode — selects saturating subtraction clamped at 0. -/
theorem subtraction_mode_dispatch (bd : ℕ) (q : List Image) (p : Params) (d : Image)
    (hd : p.dark = some d) (hs : p.subtract_dark.isTrue = true) :
    (processCycle bd q p).integrated =
      (if p.subtraction_mode = PyVal.pyBool true
       then cv2_absdiff (integration_stage bd q p) d
       else cv2_subtract (integration_stage bd q p) d) := by
  by_cases hm : p.subtraction_mode = PyVal.pyBool true
  · have hmt : p.subtraction_mode.isTrue = true := (isTrue_eq_true_iff _).mpr hm
    rw [if_pos hm]
    simp [processCycle, dark_stage, hd, hs, hmt]
  · have hmf : p.subtraction_mode.isTrue = false := by
      cases hbool : p.subtraction_mode.isTrue with
      | false => rfl
      | true => exact absurd ((isTrue_eq_true_iff p.subtraction_mode).mp hbool) hm
    rw [if_neg hm]
    simp [processCycle, dark_stage, hd, hs, hmf]

/-- Witness for `subtraction_mode_dispatch` where the stored mode is the string naming
the absolute-difference mode — the dispatch still selects saturating subtraction. -/
theorem subtraction_mode_dispatch_witness :
    (processCycle 65536 [[10]] pDarkStr).integrated =
      (if pDarkStr.subtraction_mode = PyVal.pyBool true
       then cv2_absdiff (integration_stage 65536 [[10]] pDarkStr) [3]
       else cv2_subtract (integration_stage 65536 [[10]] pDarkStr) [3]) :=
  subtraction_mode_dispatch 65536 [[10]] pDarkStr [3] rfl rfl

/-- C4 (counterexample): the static overlay is promoted GRAY→BGR by channel replication,
not by zeroing two channels, so the composited output differs from the claim's formula in
the two channels that the claim zeroes. -/
theorem overlay_promotion_counterexample :
    (processCycle 65536 [[100]] pOverlay).final = FinalImage.color [(100, 100, 150)] ∧
    overlay_spec_claim 65536 pOverlay (processCycle 65536 [[100]] pOverlay).equalized
      = FinalImage.color [(0, 0, 150)] ∧
    (processCycle 65536 [[100]] pOverlay).final
      ≠ overlay_spec_claim 65536 pOverlay (processCycle 65536 [[100]] pOverlay).equalized := by
  refine ⟨?_, ?_, ?_⟩ <;>
    norm_num [processCycle, overlay_stage, overlay_spec_claim, lut_apply, lut_func,
      dark_stage, integration_stage, pOverlay, p0, initParams, PyVal.isTrue, add_weighted3,
      merge_red, gray_to_bgr, satCast, toNat_ofNat_lit, min_def, max_def]

/-- C4 (amended): when overlay is enabled and a static frame is set, the equalized image
is promoted to three channels with the grayscale in one channel and the other two zeroed,
the overlay is promoted by replicating the grayscale into all three channels
(`cv2.COLOR_GRAY2BGR`), and the final image is the alpha blend
`(1 - opacity) * mainChannelImage + opacity * overlayChannelImage` with
`opacity = overlayOpacity / 100`. -/
theorem overlay_compositing (bd : ℕ) (q : List Image) (p : Params) (s : Image)
    (hs : p.static = some s) (ho : p.overlay_static.isTrue = true) :
    (processCycle bd q p).final =
      FinalImage.color
        (add_weighted3 (bd - 1) (merge_red (processCycle bd q p).equalized)
          (1 - p.overlay_opacity / 100) (gray_to_bgr s) (p.overlay_opacity / 100)) := by
  simp [processCycle, overlay_stage, hs, ho]

/-- Witness for `overlay_compositing` at a concrete one-pixel scene. -/
theorem overlay_compositing_witness :
    (processCycle 65536 [[100]] pOverlay).final =
      FinalImage.color
        (add_weighted3 (65536 - 1)
          (merge_red (processCycle 65536 [[100]] pOverlay).equalized)
          (1 - pOverlay.overlay_opacity / 100) (gray_to_bgr [200])
          (pOverlay.overlay_opacity / 100)) :=
  overlay_compositing 65536 [[100]] pOverlay [200] rfl rfl

/-- C8: with the configured 8-bit input (`_INPUT_BIT_DEPTH = 256`), the `>=` branch the
code's own TODO flags selects a 16-bit working depth, so the normalized frame value is
`125 * 256 = 32000` and the gate-(50,200) LUT saturates the equalized image to 65535
instead of the claimed 127; under the TODO-intended `>` comparison the working depth is
8-bit and the same scenario yields exactly the claimed 127 (the truncating cast of
`(125-50)*255/150 = 127.5`). -/
theorem bit_depth_selection_bug :
    selectBitDepth 256 = 2 ^ 16 ∧
    (processCycle (selectBitDepth 256)
        [snapNormalize (selectBitDepth 256) (bitDepthMult (selectBitDepth 256) 256) [125]]
        pGate16).equalized = [65535] ∧
    selectBitDepthIntended 256 = 2 ^ 8 ∧
    (processCycle (selectBitDepthIntended 256)
        [snapNormalize (selectBitDepthIntended 256)
          (bitDepthMult (selectBitDepthIntended 256) 256) [125]]
        pGate8).equalized = [127] := by
  have h8 : Nat.log2 256 = 8 := by
    have h256 : (256 : ℕ) = 2 ^ 8 := by norm_num
    rw [h256, Nat.log2_two_pow]
  have hsel : selectBitDepth 256 = 2 ^ 16 := by
    rw [selectBitDepth, h8]
    norm_num
  have hsel2 : selectBitDepthIntended 256 = 2 ^ 8 := by
    rw [selectBitDepthIntended, h8]
    norm_num
  refine ⟨hsel, ?_, hsel2, ?_⟩
  · rw [hsel]
    norm_num [processCycle, lut_apply, lut_func, dark_stage, integration_stage,
      snapNormalize, bitDepthMult, pGate16, p0, initParams, PyVal.isTrue, min_def, max_def,
      toNat_ofNat_lit]
  · rw [hsel2]
    norm_num [processCycle, lut_apply, lut_func, dark_stage, integration_stage,
      snapNormalize, bitDepthMult, pGate8, initParams, PyVal.isTrue, min_def, max_def,
      toNat_ofNat_lit]

/-- C1 (counterexample): on the two-frame history `[[0], [100]]` with `n = 2`, the code's
integration loop yields `[50]`, while the claim's blend — same per-frame weights but
accumulated from the oldest frame of the window to the newest — yields `[100]`. -/
theorem integration_order_counterexample :
    (processCycle 65536 [[0], [100]] pInt2).integrated = [50] ∧
    window_blend_oldest_first 65535 [[0], [100]] 2 2 = [100] ∧
    (([50] : Image) ≠ ([100] : Image)) := by
  refine ⟨?_, ?_, by decide⟩
  · norm_num [processCycle, dark_stage, integration_stage, integr_loop, pInt2, p0,
      initParams, PyVal.isTrue, addWeighted, satCast, toNat_ofNat_lit]
  · norm_num [window_blend_oldest_first, addWeighted, satCast, toNat_ofNat_lit]

/-- C1 (amended): when integration is enabled with `n = min(integrationCount, len) ≥ 1`,
the result of the temporal-integration step is the weighted blend over the window of the
last `n` frames in which the frame at offset `i` from the newest receives weight
`(n-i)/n` and the running composite weight `i/n`, accumulated iteratively from the newest
frame of the selected window to the oldest (loop index `i = 0..n-1`). -/
theorem integration_blend_window (bd : ℕ) (q : List Image) (p : Params)
    (hint : p.integration.isTrue = true)
    (hn : 1 ≤ min p.integration_val q.length) :
    integration_stage bd q p =
      window_blend (bd - 1) (q.drop (q.length - min p.integration_val q.length))
        (min p.integration_val q.length) (min p.integration_val q.length) := by
  have hq : min p.integration_val q.length ≤ q.length := Nat.min_le_right _ _
  rw [integration_stage, if_pos hint,
    integr_loop_eq_window_blend (bd - 1) q (min p.integration_val q.length) hn hq
      (min p.integration_val q.length) le_rfl]

/-- Witness for `integration_blend_window` on the two-frame history. -/
theorem integration_blend_window_witness :
    integration_stage 65536 [[0], [100]] pInt2 =
      window_blend (65536 - 1)
        (([[0], [100]] : List Image).drop
          (([[0], [100]] : List Image).length
            - min pInt2.integration_val ([[0], [100]] : List Image).length))
        (min pInt2.integration_val ([[0], [100]] : List Image).length)
        (min pInt2.integration_val ([[0], [100]] : List Image).length) :=
  integration_blend_window 65536 [[0], [100]] pInt2 rfl (by decide)
